import Mathlib

/-!
Verification of `codex-rs/tui/src/spawn_terminal.rs`: terminal-emulator
detection from environment variables, per-terminal command construction
with a fallback chain, and the spawning orchestrator.

The process environment is modelled as a partial map from variable names
to values (`Env`), the executable search path as a predicate on program
names (`SearchPath`), and an external command as a record of program
name, argument vector, optional working directory and stream policy.
-/

/-- A process environment: a variable name is either set to a string value
or unset.  `std::env::var` succeeding corresponds to `some`. -/
def Env : Type := String → Option String

/-- The host's executable search path: `which::which(p).is_ok()`
corresponds to `sp p = true`. -/
def SearchPath : Type := String → Bool

/-- The terminal emulators distinguished by the module
(`enum TerminalType` in the source). -/
inductive TerminalType where
  | Ghostty
  | VSCode
  | Alacritty
  | Kitty
  | WezTerm
  | GnomeTerminal
  | Konsole
  | Xterm
  | Unknown
deriving DecidableEq, Repr

/-- Stream-redirection policy for one standard stream
(`std::process::Stdio`): inherited by default, or discarded. -/
inductive StdioCfg where
  | inherit
  | null
deriving DecidableEq, Repr

/-- An external-process specification (`tokio::process::Command`):
program name, ordered argument vector, optional working directory and
the three standard-stream policies.  A freshly constructed command has
no working directory and inherits all streams. -/
structure Command where
  program : String
  args : List String
  cwd : Option String := none
  stdin : StdioCfg := .inherit
  stdout : StdioCfg := .inherit
  stderr : StdioCfg := .inherit
deriving DecidableEq, Repr

/-- The kind of an I/O error (`std::io::ErrorKind`); only `NotFound` is
produced by this module itself, `other` stands for every other kind the
platform may report. -/
inductive ErrorKind where
  | notFound
  | other
deriving DecidableEq, Repr

/-- An I/O error (`std::io::Error`): a kind plus a human-readable
message. -/
structure IoError where
  kind : ErrorKind
  msg : String
deriving DecidableEq, Repr

/-- Lowercasing of a string, modelling Rust's `str::to_lowercase` as used
by the detector.  The names it is compared against (`ghostty`, `vscode`,
`wezterm`, `alacritty`) are pure ASCII, where per-character lowering
agrees with Rust's Unicode lowercasing. -/
def lowercase (s : String) : String := ⟨s.data.map Char.toLower⟩

/-- `detect_terminal_type` from the source: classify the current
terminal emulator from the environment, first match wins. -/
def detect_terminal_type (env : Env) : TerminalType :=
  -- Check TERM_PROGRAM first (most reliable)
  match env "TERM_PROGRAM" with
  | some term_program =>
    if lowercase term_program = "ghostty" then .Ghostty
    else if lowercase term_program = "vscode" then .VSCode
    else if lowercase term_program = "wezterm" then .WezTerm
    else detect_terminal_type_rest env
  | none => detect_terminal_type_rest env
where
  /-- The checks after the `TERM_PROGRAM` block, in source order. -/
  detect_terminal_type_rest (env : Env) : TerminalType :=
    -- Check for VS Code specific env vars
    if (env "VSCODE_GIT_IPC_HANDLE").isSome ∨ env "TERM_PROGRAM" = some "vscode" then
      .VSCode
    -- Check for Ghostty specific env vars
    else if (env "GHOSTTY_RESOURCES_DIR").isSome then .Ghostty
    -- Check for WezTerm
    else if (env "WEZTERM_EXECUTABLE").isSome then .WezTerm
    -- Check for Kitty
    else if (env "KITTY_WINDOW_ID").isSome then .Kitty
    -- Check for Alacritty
    else if (env "ALACRITTY_SOCKET").isSome ∨ env "TERM" = some "alacritty" then
      .Alacritty
    -- Check for Konsole
    else if (env "KONSOLE_VERSION").isSome then .Konsole
    -- Check for GNOME Terminal
    else if (env "GNOME_TERMINAL_SCREEN").isSome then .GnomeTerminal
    else .Unknown

/-- `build_terminal_command` from the source: given the detected kind,
the path of the current executable and the forwarded arguments, build
the external command, probing the search path in the fallback arms. -/
def build_terminal_command (sp : SearchPath) (terminal_type : TerminalType)
    (codex_binary : String) (codex_args : List String) :
    Except IoError Command :=
  match terminal_type with
  | .Ghostty =>
    .ok { program := "ghostty", args := codex_binary :: codex_args }
  | .VSCode =>
    -- VS Code terminal: try gnome-terminal, konsole, or xterm as fallback
    if sp "gnome-terminal" then
      .ok { program := "gnome-terminal", args := "--" :: codex_binary :: codex_args }
    else if sp "konsole" then
      .ok { program := "konsole", args := "-e" :: codex_binary :: codex_args }
    else if sp "xterm" then
      .ok { program := "xterm", args := "-e" :: codex_binary :: codex_args }
    else
      .error ⟨.notFound, "No suitable terminal emulator found for VS Code environment"⟩
  | .Alacritty =>
    .ok { program := "alacritty", args := "-e" :: codex_binary :: codex_args }
  | .Kitty =>
    .ok { program := "kitty", args := codex_binary :: codex_args }
  | .WezTerm =>
    .ok { program := "wezterm", args := "start" :: "--" :: codex_binary :: codex_args }
  | .GnomeTerminal =>
    .ok { program := "gnome-terminal", args := "--" :: codex_binary :: codex_args }
  | .Konsole =>
    .ok { program := "konsole", args := "-e" :: codex_binary :: codex_args }
  | .Xterm =>
    .ok { program := "xterm", args := "-e" :: codex_binary :: codex_args }
  | .Unknown =>
    -- Try common terminals in order of preference
    if sp "gnome-terminal" then
      .ok { program := "gnome-terminal", args := "--" :: codex_binary :: codex_args }
    else if sp "konsole" then
      .ok { program := "konsole", args := "-e" :: codex_binary :: codex_args }
    else if sp "xterm" then
      .ok { program := "xterm", args := "-e" :: codex_binary :: codex_args }
    else
      .error ⟨.notFound, "No suitable terminal emulator found"⟩

/-- `spawn_terminal_with_codex` from the source, with the platform
effects passed in explicitly: `current_exe` is the (possibly failing)
resolution of the running executable's path, and `spawnOS` is the
operating system's process-creation facility, applied to the fully
configured command. -/
def spawn_terminal_with_codex {α : Type} (env : Env) (sp : SearchPath)
    (current_exe : Except IoError String)
    (spawnOS : Command → Except IoError α)
    (codex_args : List String) (cwd : Option String) : Except IoError α :=
  -- Get the path to the current codex binary (`?` propagates the error)
  match current_exe with
  | .error e => .error e
  | .ok codex_binary =>
    -- Detect terminal type
    let terminal_type := detect_terminal_type env
    -- Build the command based on terminal type (`?` propagates the error)
    match build_terminal_command sp terminal_type codex_binary codex_args with
    | .error e => .error e
    | .ok cmd =>
      -- Set working directory if provided
      let cmd := match cwd with
        | some dir => { cmd with cwd := some dir }
        | none => cmd
      -- Spawn detached so it doesn't block
      spawnOS { cmd with stdin := .null, stdout := .null, stderr := .null }

/-- The detector as the specification words it (§4.1): a single ordered
first-match cascade over the nine rules.  Written from the spec's
decision list, to be compared with `detect_terminal_type`. -/
def detectSpecOrder (env : Env) : TerminalType :=
  if (env "TERM_PROGRAM").any (fun s => lowercase s == "ghostty") then .Ghostty
  else if (env "TERM_PROGRAM").any (fun s => lowercase s == "vscode") then .VSCode
  else if (env "TERM_PROGRAM").any (fun s => lowercase s == "wezterm") then .WezTerm
  else if (env "VSCODE_GIT_IPC_HANDLE").isSome ∨ env "TERM_PROGRAM" = some "vscode" then
    .VSCode
  else if (env "GHOSTTY_RESOURCES_DIR").isSome then .Ghostty
  else if (env "WEZTERM_EXECUTABLE").isSome then .WezTerm
  else if (env "KITTY_WINDOW_ID").isSome then .Kitty
  else if (env "ALACRITTY_SOCKET").isSome ∨ env "TERM" = some "alacritty" then
    .Alacritty
  else if (env "KONSOLE_VERSION").isSome then .Konsole
  else if (env "GNOME_TERMINAL_SCREEN").isSome then .GnomeTerminal
  else .Unknown

/-- An environment with no variables set at all. -/
def envEmpty : Env := fun _ => none

/-- An environment where `TERM_PROGRAM=ghostty` and `KITTY_WINDOW_ID=1`
are both set (nested-session tie-break scenario of the spec). -/
def envGhosttyKitty : Env := fun n =>
  if n = "TERM_PROGRAM" then some "ghostty"
  else if n = "KITTY_WINDOW_ID" then some "1"
  else none

/-- **C1.** The detector is total (it is a function) and agrees everywhere
with the ordered first-match cascade of §4.1; in particular
`TERM_PROGRAM=ghostty` together with `KITTY_WINDOW_ID` set yields
`Ghostty`, never `Kitty`. -/
theorem detect_follows_priority_order :
    (∀ env : Env, detect_terminal_type env = detectSpecOrder env) ∧
    detect_terminal_type envGhosttyKitty = .Ghostty := by
  constructor
  · intro env
    unfold detect_terminal_type detectSpecOrder
      detect_terminal_type.detect_terminal_type_rest
    rcases h : env "TERM_PROGRAM" with _ | tp <;>
      simp only [h, Option.any_none, Option.any_some, Bool.false_eq_true,
        if_false, beq_iff_eq]
  · decide

/-- **C5.** When no consulted environment variable carries a matching
value, the detector returns `Unknown`. -/
theorem detect_unknown_of_no_markers (env : Env)
    (hTP : ∀ s, env "TERM_PROGRAM" = some s →
      lowercase s ≠ "ghostty" ∧ lowercase s ≠ "vscode" ∧ lowercase s ≠ "wezterm")
    (hIpc : env "VSCODE_GIT_IPC_HANDLE" = none)
    (hGho : env "GHOSTTY_RESOURCES_DIR" = none)
    (hWez : env "WEZTERM_EXECUTABLE" = none)
    (hKit : env "KITTY_WINDOW_ID" = none)
    (hAla : env "ALACRITTY_SOCKET" = none)
    (hTerm : env "TERM" ≠ some "alacritty")
    (hKon : env "KONSOLE_VERSION" = none)
    (hGno : env "GNOME_TERMINAL_SCREEN" = none) :
    detect_terminal_type env = .Unknown := by
  have hTPv : env "TERM_PROGRAM" ≠ some "vscode" := by
    intro h
    exact ((hTP "vscode" h).2.1) (by decide)
  unfold detect_terminal_type detect_terminal_type.detect_terminal_type_rest
  rcases h : env "TERM_PROGRAM" with _ | tp
  · simp [h, hIpc, hGho, hWez, hKit, hAla, hTerm, hKon, hGno]
  · obtain ⟨h1, h2, h3⟩ := hTP tp h
    rw [h] at hTPv
    have htv : ¬ tp = "vscode" := fun hc => hTPv (by rw [hc])
    simp [h1, h2, h3, hIpc, hGho, hWez, hKit, hAla, hTerm, hKon, hGno, htv]

/-- **C5 witness.** The empty environment is detected as `Unknown`. -/
theorem detect_unknown_of_no_markers_witness :
    detect_terminal_type envEmpty = .Unknown :=
  detect_unknown_of_no_markers envEmpty
    (fun s h => by simp [envEmpty] at h)
    rfl rfl rfl rfl rfl (by decide) rfl rfl

/-- **C6.** The `TERM_PROGRAM` value is matched case-insensitively
against `ghostty`, `vscode`, `wezterm`: any value that lowercases to one
of these names yields the corresponding kind immediately. -/
theorem detect_term_program_case_insensitive (env : Env) (s : String)
    (h : env "TERM_PROGRAM" = some s) :
    (lowercase s = "ghostty" → detect_terminal_type env = .Ghostty) ∧
    (lowercase s = "vscode" → detect_terminal_type env = .VSCode) ∧
    (lowercase s = "wezterm" → detect_terminal_type env = .WezTerm) := by
  unfold detect_terminal_type
  rw [h]
  exact ⟨fun hg => by simp [hg], fun hv => by simp [hv], fun hw => by simp [hw]⟩

/-- **C6 witness.** Mixed-case values `GhOsTtY`, `VSCODE`, `WezTerm`
are detected as `Ghostty`, `VSCode`, `WezTerm` respectively. -/
theorem detect_term_program_case_insensitive_witness :
    detect_terminal_type (fun n => if n = "TERM_PROGRAM" then some "GhOsTtY" else none)
      = .Ghostty ∧
    detect_terminal_type (fun n => if n = "TERM_PROGRAM" then some "VSCODE" else none)
      = .VSCode ∧
    detect_terminal_type (fun n => if n = "TERM_PROGRAM" then some "WezTerm" else none)
      = .WezTerm :=
  ⟨(detect_term_program_case_insensitive _ "GhOsTtY" rfl).1 (by decide),
   (detect_term_program_case_insensitive _ "VSCODE" rfl).2.1 (by decide),
   (detect_term_program_case_insensitive _ "WezTerm" rfl).2.2 (by decide)⟩

set_option maxHeartbeats 1000000 in
/-- **C9.** The detector never returns `Xterm`; in the pipeline, a
command whose program is `xterm` can only arise from the `VSCode` or
`Unknown` fallback chains. -/
theorem detect_never_produces_xterm :
    (∀ env : Env, detect_terminal_type env ≠ .Xterm) ∧
    (∀ (env : Env) (sp : SearchPath) (b : String) (a : List String) (cmd : Command),
      build_terminal_command sp (detect_terminal_type env) b a = .ok cmd →
      cmd.program = "xterm" →
      detect_terminal_type env = .VSCode ∨ detect_terminal_type env = .Unknown) := by
  have hne : ∀ env : Env, detect_terminal_type env ≠ .Xterm := by
    intro env
    unfold detect_terminal_type detect_terminal_type.detect_terminal_type_rest
    rcases env "TERM_PROGRAM" with _ | tp <;> (repeat' split) <;> simp
  refine ⟨hne, ?_⟩
  intro env sp b a cmd hok hprog
  cases hdet : detect_terminal_type env
  case VSCode => exact Or.inl rfl
  case Unknown => exact Or.inr rfl
  case Xterm => exact absurd hdet (hne env)
  all_goals
    rw [hdet] at hok
    simp only [build_terminal_command] at hok
    injection hok with h
    subst h
    simp at hprog

/-- An environment with only `KITTY_WINDOW_ID` set. -/
def envKittyOnly : Env := fun n => if n = "KITTY_WINDOW_ID" then some "1" else none

/-- A search path on which only `xterm` resolves. -/
def spXtermOnly : SearchPath := fun p => p == "xterm"

/-- **C9 witness.** The detector does not classify a Kitty environment
as `Xterm`, and when the empty environment's `Unknown` result reaches an
`xterm`-only search path the produced `xterm` command indeed came from
the `VSCode`-or-`Unknown` fallback. -/
theorem detect_never_produces_xterm_witness :
    detect_terminal_type envKittyOnly ≠ .Xterm ∧
    (detect_terminal_type envEmpty = .VSCode ∨ detect_terminal_type envEmpty = .Unknown) :=
  ⟨detect_never_produces_xterm.1 envKittyOnly,
   detect_never_produces_xterm.2 envEmpty spXtermOnly "/usr/local/bin/codex" ["run"]
     { program := "xterm", args := ["-e", "/usr/local/bin/codex", "run"] }
     rfl rfl⟩

/-- The detector with the exact-equality disjunct
`TERM_PROGRAM == "vscode"` removed from the second check, keeping only
the `VSCODE_GIT_IPC_HANDLE` test there. -/
def detect_terminal_type_noredundant (env : Env) : TerminalType :=
  match env "TERM_PROGRAM" with
  | some term_program =>
    if lowercase term_program = "ghostty" then .Ghostty
    else if lowercase term_program = "vscode" then .VSCode
    else if lowercase term_program = "wezterm" then .WezTerm
    else rest env
  | none => rest env
where
  /-- The checks after the `TERM_PROGRAM` block, without the redundant
  exact-equality disjunct in the VS Code check. -/
  rest (env : Env) : TerminalType :=
    if (env "VSCODE_GIT_IPC_HANDLE").isSome then .VSCode
    else if (env "GHOSTTY_RESOURCES_DIR").isSome then .Ghostty
    else if (env "WEZTERM_EXECUTABLE").isSome then .WezTerm
    else if (env "KITTY_WINDOW_ID").isSome then .Kitty
    else if (env "ALACRITTY_SOCKET").isSome ∨ env "TERM" = some "alacritty" then
      .Alacritty
    else if (env "KONSOLE_VERSION").isSome then .Konsole
    else if (env "GNOME_TERMINAL_SCREEN").isSome then .GnomeTerminal
    else .Unknown

/-- **C10.** The exact-equality disjunct `TERM_PROGRAM == "vscode"` in the
detector's second check is redundant: removing it changes the result on
no environment, because a `TERM_PROGRAM` exactly equal to `vscode`
already matches the case-insensitive first check. -/
theorem detect_vscode_disjunct_redundant :
    ∀ env : Env, detect_terminal_type_noredundant env = detect_terminal_type env := by
  intro env
  unfold detect_terminal_type detect_terminal_type.detect_terminal_type_rest
    detect_terminal_type_noredundant detect_terminal_type_noredundant.rest
  rcases h : env "TERM_PROGRAM" with _ | tp
  · simp [h]
  · by_cases hg : lowercase tp = "ghostty"
    · simp [hg]
    · by_cases hv : lowercase tp = "vscode"
      · simp [hg, hv]
      · by_cases hw : lowercase tp = "wezterm"
        · simp [hg, hv, hw]
        · have htv : ¬ tp = "vscode" := fun hc => hv (by rw [hc]; decide)
          simp [hg, hv, hw, h, htv]

/-- **C2.** For every non-fallback kind, every executable path and every
argument list, the builder succeeds with exactly the table's program
name and prefix arguments, followed by the target executable, followed
by the forwarded arguments in their original order. -/
theorem build_nonfallback_table (sp : SearchPath) (b : String) (a : List String) :
    build_terminal_command sp .Ghostty b a =
      .ok { program := "ghostty", args := b :: a } ∧
    build_terminal_command sp .Alacritty b a =
      .ok { program := "alacritty", args := "-e" :: b :: a } ∧
    build_terminal_command sp .Kitty b a =
      .ok { program := "kitty", args := b :: a } ∧
    build_terminal_command sp .WezTerm b a =
      .ok { program := "wezterm", args := "start" :: "--" :: b :: a } ∧
    build_terminal_command sp .GnomeTerminal b a =
      .ok { program := "gnome-terminal", args := "--" :: b :: a } ∧
    build_terminal_command sp .Konsole b a =
      .ok { program := "konsole", args := "-e" :: b :: a } ∧
    build_terminal_command sp .Xterm b a =
      .ok { program := "xterm", args := "-e" :: b :: a } :=
  ⟨rfl, rfl, rfl, rfl, rfl, rfl, rfl⟩

/-- **C3.** For the `VSCode` and `Unknown` kinds: with none of the three
fallback programs on the search path the builder fails with a
`notFound` error; with exactly one present, that one is chosen,
whichever it is. -/
theorem build_fallback_none_or_one (sp : SearchPath) (t : TerminalType)
    (ht : t = .VSCode ∨ t = .Unknown) (b : String) (a : List String) :
    ((sp "gnome-terminal" = false ∧ sp "konsole" = false ∧ sp "xterm" = false) →
      ∃ e : IoError, build_terminal_command sp t b a = .error e ∧ e.kind = .notFound) ∧
    ((sp "gnome-terminal" = true ∧ sp "konsole" = false ∧ sp "xterm" = false) →
      build_terminal_command sp t b a =
        .ok { program := "gnome-terminal", args := "--" :: b :: a }) ∧
    ((sp "gnome-terminal" = false ∧ sp "konsole" = true ∧ sp "xterm" = false) →
      build_terminal_command sp t b a =
        .ok { program := "konsole", args := "-e" :: b :: a }) ∧
    ((sp "gnome-terminal" = false ∧ sp "konsole" = false ∧ sp "xterm" = true) →
      build_terminal_command sp t b a =
        .ok { program := "xterm", args := "-e" :: b :: a }) := by
  rcases ht with rfl | rfl
  · exact ⟨fun ⟨h1, h2, h3⟩ =>
        ⟨⟨.notFound, "No suitable terminal emulator found for VS Code environment"⟩,
         by simp [build_terminal_command, h1, h2, h3], rfl⟩,
      fun ⟨h1, h2, h3⟩ => by simp [build_terminal_command, h1, h2, h3],
      fun ⟨h1, h2, h3⟩ => by simp [build_terminal_command, h1, h2, h3],
      fun ⟨h1, h2, h3⟩ => by simp [build_terminal_command, h1, h2, h3]⟩
  · exact ⟨fun ⟨h1, h2, h3⟩ =>
        ⟨⟨.notFound, "No suitable terminal emulator found"⟩,
         by simp [build_terminal_command, h1, h2, h3], rfl⟩,
      fun ⟨h1, h2, h3⟩ => by simp [build_terminal_command, h1, h2, h3],
      fun ⟨h1, h2, h3⟩ => by simp [build_terminal_command, h1, h2, h3],
      fun ⟨h1, h2, h3⟩ => by simp [build_terminal_command, h1, h2, h3]⟩

/-- A search path on which nothing resolves. -/
def spNone : SearchPath := fun _ => false

/-- **C3 witness.** With an empty search path the `VSCode` arm fails
with `notFound`, and with only `xterm` resolvable the `Unknown` arm
chooses `xterm`. -/
theorem build_fallback_none_or_one_witness :
    (∃ e : IoError,
      build_terminal_command spNone .VSCode "/bin/codex" [] = .error e ∧
      e.kind = .notFound) ∧
    build_terminal_command spXtermOnly .Unknown "/bin/codex" [] =
      .ok { program := "xterm", args := ["-e", "/bin/codex"] } :=
  ⟨(build_fallback_none_or_one spNone .VSCode (Or.inl rfl) "/bin/codex" []).1
      ⟨rfl, rfl, rfl⟩,
   (build_fallback_none_or_one spXtermOnly .Unknown (Or.inr rfl) "/bin/codex" []).2.2.2
      ⟨rfl, rfl, rfl⟩⟩

/-- **C4.** For the `VSCode` and `Unknown` kinds, when two of the three
fallback programs resolve, `gnome-terminal` is preferred to `konsole`
and `konsole` to `xterm`. -/
theorem build_fallback_preference (sp : SearchPath) (t : TerminalType)
    (ht : t = .VSCode ∨ t = .Unknown) (b : String) (a : List String) :
    (sp "gnome-terminal" = true → sp "konsole" = true →
      build_terminal_command sp t b a =
        .ok { program := "gnome-terminal", args := "--" :: b :: a }) ∧
    (sp "gnome-terminal" = true → sp "xterm" = true →
      build_terminal_command sp t b a =
        .ok { program := "gnome-terminal", args := "--" :: b :: a }) ∧
    (sp "gnome-terminal" = false → sp "konsole" = true → sp "xterm" = true →
      build_terminal_command sp t b a =
        .ok { program := "konsole", args := "-e" :: b :: a }) := by
  rcases ht with rfl | rfl <;>
    exact ⟨fun h1 _ => by simp [build_terminal_command, h1],
      fun h1 _ => by simp [build_terminal_command, h1],
      fun h1 h2 _ => by simp [build_terminal_command, h1, h2]⟩

/-- A search path on which every program resolves. -/
def spAll : SearchPath := fun _ => true

/-- A search path on which only `konsole` and `xterm` resolve. -/
def spKonsoleXterm : SearchPath := fun p => p == "konsole" || p == "xterm"

/-- **C4 witness.** With all three present the `Unknown` arm picks
`gnome-terminal`; with only `konsole` and `xterm` present the `VSCode`
arm picks `konsole`. -/
theorem build_fallback_preference_witness :
    build_terminal_command spAll .Unknown "/bin/codex" [] =
      .ok { program := "gnome-terminal", args := ["--", "/bin/codex"] } ∧
    build_terminal_command spKonsoleXterm .VSCode "/bin/codex" [] =
      .ok { program := "konsole", args := ["-e", "/bin/codex"] } :=
  ⟨(build_fallback_preference spAll .Unknown (Or.inr rfl) "/bin/codex" []).1 rfl rfl,
   (build_fallback_preference spKonsoleXterm .VSCode (Or.inl rfl) "/bin/codex" []).2.2
      rfl rfl rfl⟩

/-- Forget the human-readable message of a builder result, keeping only
the error kind: the observable semantics modulo message text. -/
def resultModuloMsg (r : Except IoError Command) : Except ErrorKind Command :=
  match r with
  | .ok c => .ok c
  | .error e => .error e.kind

/-- **C7.** The `VSCode` and `Unknown` fallback arms are semantically
identical: on every search path, executable path and argument list they
yield the same command or both fail, every failure has kind `notFound`,
and only the message text distinguishes the two failures. -/
theorem build_vscode_unknown_equivalent :
    (∀ (sp : SearchPath) (b : String) (a : List String),
      resultModuloMsg (build_terminal_command sp .VSCode b a) =
        resultModuloMsg (build_terminal_command sp .Unknown b a)) ∧
    (∀ (sp : SearchPath) (b : String) (a : List String) (e : IoError),
      build_terminal_command sp .VSCode b a = .error e ∨
        build_terminal_command sp .Unknown b a = .error e →
      e.kind = .notFound) := by
  constructor
  · intro sp b a
    simp only [build_terminal_command]
    by_cases h1 : sp "gnome-terminal" <;> by_cases h2 : sp "konsole" <;>
      by_cases h3 : sp "xterm" <;> simp [h1, h2, h3, resultModuloMsg]
  · intro sp b a e h
    rcases h with h | h <;>
      (simp only [build_terminal_command] at h
       repeat' split at h) <;>
      first
        | (cases h; rfl)
        | simp at h

/-- **C7 witness.** On the empty search path both arms fail, with the
same observable result modulo message, and the `VSCode` failure has
kind `notFound`. -/
theorem build_vscode_unknown_equivalent_witness :
    resultModuloMsg (build_terminal_command spNone .VSCode "/bin/codex" []) =
      resultModuloMsg (build_terminal_command spNone .Unknown "/bin/codex" []) ∧
    IoError.kind ⟨.notFound, "No suitable terminal emulator found for VS Code environment"⟩
      = .notFound :=
  ⟨build_vscode_unknown_equivalent.1 spNone "/bin/codex" [],
   build_vscode_unknown_equivalent.2 spNone "/bin/codex" []
     ⟨.notFound, "No suitable terminal emulator found for VS Code environment"⟩
     (Or.inl rfl)⟩

/-- Any command the builder returns carries no working directory and
inherits all three standard streams: only the spawner sets them. -/
theorem build_ok_fields (sp : SearchPath) (t : TerminalType) (b : String)
    (a : List String) (cmd : Command)
    (h : build_terminal_command sp t b a = .ok cmd) :
    cmd.cwd = none ∧ cmd.stdin = .inherit ∧ cmd.stdout = .inherit ∧
      cmd.stderr = .inherit := by
  cases t <;>
    (simp only [build_terminal_command] at h
     repeat' split at h) <;>
    first
      | (injection h with h; subst h; exact ⟨rfl, rfl, rfl, rfl⟩)
      | simp at h

/-- **C8.** The spawner propagates a failing executable-path resolution
unchanged; it propagates a builder failure unchanged; and on success it
calls the process-creation facility exactly once, on the built command
with the optional working directory applied exactly when given and all
three standard streams discarded. -/
theorem spawn_orchestration {α : Type} (env : Env) (sp : SearchPath)
    (spawnOS : Command → Except IoError α) (a : List String) (cwd : Option String) :
    (∀ e : IoError,
      spawn_terminal_with_codex env sp (.error e) spawnOS a cwd = .error e) ∧
    (∀ (exe : String) (e : IoError),
      build_terminal_command sp (detect_terminal_type env) exe a = .error e →
      spawn_terminal_with_codex env sp (.ok exe) spawnOS a cwd = .error e) ∧
    (∀ (exe : String) (cmd : Command),
      build_terminal_command sp (detect_terminal_type env) exe a = .ok cmd →
      cmd.cwd = none ∧
      spawn_terminal_with_codex env sp (.ok exe) spawnOS a cwd =
        spawnOS { program := cmd.program, args := cmd.args, cwd := cwd,
                  stdin := .null, stdout := .null, stderr := .null }) := by
  refine ⟨fun e => rfl, fun exe e h => ?_, fun exe cmd h => ?_⟩
  · simp [spawn_terminal_with_codex, h]
  · obtain ⟨hcwd, _, _, _⟩ := build_ok_fields sp _ exe a cmd h
    refine ⟨hcwd, ?_⟩
    obtain ⟨p, ar, c, si, so, se⟩ := cmd
    simp only [Command.cwd] at hcwd
    subst hcwd
    rcases cwd with _ | d <;> simp [spawn_terminal_with_codex, h]

/-- **C8 witness.** End-to-end: in a Ghostty environment, with the
executable at `/usr/local/bin/codex` and arguments
`["chat", "--resume"]`, the spawner hands the process-creation facility
the `ghostty` command with no working directory and all three streams
discarded. -/
theorem spawn_orchestration_witness :
    spawn_terminal_with_codex envGhosttyKitty spNone (.ok "/usr/local/bin/codex")
        (fun c => (.ok c : Except IoError Command)) ["chat", "--resume"] none =
      .ok { program := "ghostty", args := ["/usr/local/bin/codex", "chat", "--resume"],
            cwd := none, stdin := .null, stdout := .null, stderr := .null } :=
  ((spawn_orchestration envGhosttyKitty spNone (fun c => .ok c)
      ["chat", "--resume"] none).2.2
    "/usr/local/bin/codex"
    { program := "ghostty", args := ["/usr/local/bin/codex", "chat", "--resume"] }
    rfl).2
